import Mathlib

/-!
# Verification of the AI_TRADER core against its specification

Shallow embedding of the core components of the trading system:
the indicator pipeline (`strategies.py`), the five strategy variants'
`generate_signal` functions, the risk sizer and order executor
(`trader.py`), and the real-time monitor (`realtime_monitor.py`).

Numeric values (Python floats) are modelled as rationals; Python's
banker's rounding `round(x, d)` is modelled by `pyRoundTo`; `None` and
pandas `NaN` cells are modelled with `Option`.
-/

namespace AITrader

/-- Round-half-to-even to the nearest integer, mirroring Python's `round`. -/
def roundHalfEven (q : ℚ) : ℤ :=
  let n : ℤ := ⌊q⌋
  let f : ℚ := q - n
  if f < 1/2 then n
  else if 1/2 < f then n + 1
  else if Even n then n else n + 1

/-- Python's `round(x, d)` for `d` decimal places (banker's rounding). -/
def pyRoundTo (q : ℚ) (d : ℕ) : ℚ :=
  (roundHalfEven (q * 10 ^ d) : ℚ) / 10 ^ d

/-- Python's `int(x)`: truncation toward zero. -/
def pyTrunc (q : ℚ) : ℤ :=
  if 0 ≤ q then ⌊q⌋ else -⌊-q⌋

theorem roundHalfEven_intCast (n : ℤ) : roundHalfEven (n : ℚ) = n := by
  simp [roundHalfEven]

theorem pyRoundTo_int_mul (m : ℤ) (d : ℕ) :
    pyRoundTo ((m : ℚ) / 10 ^ d) d = (m : ℚ) / 10 ^ d := by
  have h10 : ((10 : ℚ) ^ d) ≠ 0 := by positivity
  have : ((m : ℚ) / 10 ^ d) * 10 ^ d = (m : ℚ) := by
    field_simp
  rw [pyRoundTo, this, roundHalfEven_intCast]

end AITrader

namespace AITrader

/-! ## Indicator pipeline: the `rsi` column

`_calculate_basic_indicators` computes
`delta = close.diff()`,
`gain = delta.where(delta > 0, 0).rolling(window=14).mean()`,
`loss = (-delta.where(delta < 0, 0)).rolling(window=14).mean()`,
`rs = gain / loss`, `rsi = 100 - 100 / (1 + rs)`.
A cell is `none` exactly where pandas produces `NaN`. -/

/-- A plain numeric column read from a list: `none` past the end. -/
def colOf (xs : List ℚ) (i : ℕ) : Option ℚ :=
  if i < xs.length then some (xs.getD i 0) else none

/-- `Series.diff()`: `none` at index 0 and past the end. -/
def diffCol (xs : List ℚ) (i : ℕ) : Option ℚ :=
  if i = 0 ∨ xs.length ≤ i then none
  else some (xs.getD i 0 - xs.getD (i - 1) 0)

/-- `delta.where(delta > 0, 0)`: pandas `where` keeps a cell where the
condition holds and writes 0 where it does not — and `NaN > 0` is false,
so the index-0 `NaN` of `diff()` becomes 0, not `NaN`. Only indices
outside the series stay undefined. -/
def gainCol (xs : List ℚ) (i : ℕ) : Option ℚ :=
  if i < xs.length then
    some (match diffCol xs i with
      | none => 0
      | some d => if 0 < d then d else 0)
  else none

/-- `-delta.where(delta < 0, 0)`: as in `gainCol`, the index-0 `NaN` of
`diff()` fails the `delta < 0` test and becomes 0 before negation. -/
def lossCol (xs : List ℚ) (i : ℕ) : Option ℚ :=
  if i < xs.length then
    some (-(match diffCol xs i with
      | none => 0
      | some d => if d < 0 then d else 0))
  else none

/-- `rolling(window=k).mean()` with the default `min_periods = k`:
defined only when the full window of `k` cells is available and free of
`NaN`. -/
def rollMean (k : ℕ) (f : ℕ → Option ℚ) (i : ℕ) : Option ℚ :=
  if i + 1 < k then none
  else
    let w := (List.range k).map (fun j => f (i + 1 - k + j))
    if w.all Option.isSome then some ((w.map (fun o => o.getD 0)).sum / k)
    else none

/-- The `rsi` column of the indicator pipeline, exactly as the code
computes it (rolling simple means of gains and losses over 14 periods). -/
def rsiCol (xs : List ℚ) (i : ℕ) : Option ℚ :=
  match rollMean 14 (gainCol xs) i, rollMean 14 (lossCol xs) i with
  | some g, some l => some (100 - 100 / (1 + g / l))
  | _, _ => none

/-- Positive part of the price change at index `i ≥ 1`, as a total
function (used for closed-form statements). -/
def gainQ (xs : List ℚ) (i : ℕ) : ℚ :=
  let d := xs.getD i 0 - xs.getD (i - 1) 0
  if 0 < d then d else 0

/-- Negated negative part of the price change at index `i ≥ 1`. -/
def lossQ (xs : List ℚ) (i : ℕ) : ℚ :=
  let d := xs.getD i 0 - xs.getD (i - 1) 0
  if d < 0 then -d else 0

/-- The gain series after `where`: 0 at index 0 (the zeroed leading
`NaN`), the positive part of the price change elsewhere. -/
def gainQ0 (xs : List ℚ) (i : ℕ) : ℚ :=
  if i = 0 then 0 else gainQ xs i

/-- The loss series after `where` and negation: 0 at index 0, the
negated negative part of the price change elsewhere. -/
def lossQ0 (xs : List ℚ) (i : ℕ) : ℚ :=
  if i = 0 then 0 else lossQ xs i

/-- Modelled from the spec: Wilder-smoothed average gain over 14
periods (the spec's "Wilder-style average gain/loss ratio"; the source
has no Wilder smoothing, so this reference definition follows the
standard Wilder recurrence: seed with the simple average of the first
14 changes, then `avg_i = (avg_{i-1} * 13 + gain_i) / 14`). -/
def wilderAvgGain (xs : List ℚ) : ℕ → ℚ
  | 0 => 0
  | i + 1 =>
    if i + 1 < 14 then 0
    else if i + 1 = 14 then ((List.range 14).map (fun j => gainQ xs (1 + j))).sum / 14
    else (wilderAvgGain xs i * 13 + gainQ xs (i + 1)) / 14

/-- Modelled from the spec: Wilder-smoothed average loss over 14 periods. -/
def wilderAvgLoss (xs : List ℚ) : ℕ → ℚ
  | 0 => 0
  | i + 1 =>
    if i + 1 < 14 then 0
    else if i + 1 = 14 then ((List.range 14).map (fun j => lossQ xs (1 + j))).sum / 14
    else (wilderAvgLoss xs i * 13 + lossQ xs (i + 1)) / 14

/-- Modelled from the spec: the Wilder-style RSI,
`100 - 100 / (1 + RS)` with `RS` the ratio of Wilder-smoothed average
gain to Wilder-smoothed average loss. -/
def wilderRsi (xs : List ℚ) (i : ℕ) : ℚ :=
  100 - 100 / (1 + wilderAvgGain xs i / wilderAvgLoss xs i)

end AITrader

namespace AITrader

/-! ## Strategy layer (`strategies.py`)

A `Row` is one row of the indicator-augmented frame: the raw bar fields
plus every derived column a `generate_signal` implementation reads.
Each `generate_signal` reads only the last row (`iloc[-1]`) and the one
before it (`iloc[-2]`), after a minimum-bar-count guard. -/

/-- One row of an indicator-augmented frame. -/
structure Row where
  close : ℚ := 0
  sma_20 : ℚ := 0
  sma_50 : ℚ := 0
  rsi : ℚ := 0
  macd : ℚ := 0
  macd_signal : ℚ := 0
  macd_histogram : ℚ := 0
  stoch_k : ℚ := 0
  stoch_d : ℚ := 0
  bb_upper : ℚ := 0
  bb_lower : ℚ := 0
  bb_position : ℚ := 0
  percent_b : ℚ := 0
  bb_width_pct : ℚ := 0
  squeeze : Bool := false
  volume_ratio : ℚ := 0
  atr : ℚ := 0
  adx : ℚ := 0
  psar_trend : ℚ := 0
  trend_composite : ℚ := 0
  volatility_index : ℚ := 0
  rsi_7 : ℚ := 0
  rsi_21 : ℚ := 0
  macd_6_13 : ℚ := 0
  macd_signal_6_13 : ℚ := 0
  price_channel_middle : ℚ := 0
  deriving DecidableEq

instance : Inhabited Row := ⟨{}⟩

/-- Trading signal direction. -/
inductive SigDir | BUY | SELL | HOLD
  deriving DecidableEq

/-- A strategy decision: direction and 0-100 strength. -/
structure Signal where
  signal : SigDir
  strength : ℤ
  deriving DecidableEq

/-- The `latest = data.iloc[-1]` row of a frame. -/
def latestRow (frame : List Row) : Row := frame.getD (frame.length - 1) default

/-- The `previous = data.iloc[-2]` row of a frame. -/
def previousRow (frame : List Row) : Row := frame.getD (frame.length - 2) default

/-- `SimpleMAStrategy.generate_signal`. -/
def maGenerateSignal (frame : List Row) : Signal :=
  if frame.length < 50 then ⟨.HOLD, 0⟩
  else
    let latest := latestRow frame
    let previous := previousRow frame
    let ma_bullish := latest.sma_20 > latest.sma_50 ∧ previous.sma_20 ≤ previous.sma_50
    let ma_bearish := latest.sma_20 < latest.sma_50 ∧ previous.sma_20 ≥ previous.sma_50
    let rsi_ok := 30 < latest.rsi ∧ latest.rsi < 70
    let macd_bullish := latest.macd > latest.macd_signal
    let volume_ok := latest.volume_ratio > 1
    let adx_strong := latest.adx > 25
    let atr_ok := latest.atr / latest.close < 2/100
    let strength : ℕ :=
      (if ma_bullish ∧ rsi_ok ∧ macd_bullish then 40 else 0) +
      (if volume_ok then 20 else 0) +
      (if adx_strong then 20 else 0) +
      (if atr_ok then 10 else 0) +
      (if latest.close > latest.price_channel_middle then 10 else 0)
    if ma_bullish ∧ strength ≥ 60 then ⟨.BUY, min strength 95⟩
    else if ma_bearish ∧ strength ≥ 50 then ⟨.SELL, min strength 95⟩
    else ⟨.HOLD, 0⟩

/-- BUY-evidence score of `RSIStrategy.generate_signal`. -/
def rsiBuyStrength (latest : Row) : ℕ :=
  let stoch_oversold := latest.stoch_k < 20 ∧ latest.stoch_d < 20
  let macd_bullish := latest.macd > latest.macd_signal
  let rsi_aligned := (latest.rsi_7 < 30 ∧ latest.rsi_21 < 40) ∨
    (latest.rsi_7 > 70 ∧ latest.rsi_21 > 60)
  (if latest.rsi < 30 then 25 else 0) +
  (if stoch_oversold then 15 else 0) +
  (if latest.bb_position < 2/10 then 20 else 0) +
  (if macd_bullish then 15 else 0) +
  (if rsi_aligned then 15 else 0) +
  (if latest.volume_ratio > 8/10 then 10 else 0)

/-- SELL-evidence score of `RSIStrategy.generate_signal`. -/
def rsiSellStrength (latest : Row) : ℕ :=
  let stoch_overbought := latest.stoch_k > 80 ∧ latest.stoch_d > 80
  let macd_bullish := latest.macd > latest.macd_signal
  (if latest.rsi > 70 then 25 else 0) +
  (if stoch_overbought then 15 else 0) +
  (if latest.bb_position > 8/10 then 20 else 0) +
  (if ¬macd_bullish then 15 else 0)

/-- `RSIStrategy.generate_signal`. -/
def rsiGenerateSignal (frame : List Row) : Signal :=
  if frame.length < 30 then ⟨.HOLD, 0⟩
  else
    let latest := latestRow frame
    let strength := rsiBuyStrength latest
    let sell_strength := rsiSellStrength latest
    if strength ≥ 60 ∧ strength > sell_strength then ⟨.BUY, min strength 90⟩
    else if sell_strength ≥ 60 ∧ sell_strength > strength then ⟨.SELL, min sell_strength 90⟩
    else ⟨.HOLD, 0⟩

/-- BUY-evidence score of `MACDStrategy.generate_signal`. -/
def macdBuyStrength (latest previous : Row) : ℕ :=
  let macd_bullish_cross := previous.macd ≤ previous.macd_signal ∧
    latest.macd > latest.macd_signal
  let macd_histogram_rising := latest.macd_histogram > previous.macd_histogram
  let macd_above_zero := latest.macd > 0
  let rsi_ok := 40 < latest.rsi ∧ latest.rsi < 70
  let stoch_ok := 20 < latest.stoch_k ∧ latest.stoch_k < 80
  let volume_ok := latest.volume_ratio > 9/10
  let macd_aligned :=
    (latest.macd_6_13 > latest.macd_signal_6_13) = (latest.macd > latest.macd_signal)
  (if macd_bullish_cross then 30 else 0) +
  (if macd_histogram_rising then 15 else 0) +
  (if macd_above_zero then 10 else 0) +
  (if rsi_ok then 15 else 0) +
  (if stoch_ok then 10 else 0) +
  (if volume_ok then 10 else 0) +
  (if macd_aligned then 10 else 0)

/-- SELL-evidence score of `MACDStrategy.generate_signal`. -/
def macdSellStrength (latest previous : Row) : ℕ :=
  let macd_bearish_cross := previous.macd ≥ previous.macd_signal ∧
    latest.macd < latest.macd_signal
  let macd_histogram_rising := latest.macd_histogram > previous.macd_histogram
  let macd_above_zero := latest.macd > 0
  (if macd_bearish_cross then 30 else 0) +
  (if ¬macd_histogram_rising then 15 else 0) +
  (if ¬macd_above_zero then 10 else 0)

/-- `MACDStrategy.generate_signal`. -/
def macdGenerateSignal (frame : List Row) : Signal :=
  if frame.length < 35 then ⟨.HOLD, 0⟩
  else
    let latest := latestRow frame
    let previous := previousRow frame
    let strength := macdBuyStrength latest previous
    let sell_strength := macdSellStrength latest previous
    if strength ≥ 60 ∧ strength > sell_strength then ⟨.BUY, min strength 95⟩
    else if sell_strength ≥ 60 ∧ sell_strength > strength then ⟨.SELL, min sell_strength 95⟩
    else ⟨.HOLD, 0⟩

/-- BUY-evidence score of `BollingerBandsStrategy.generate_signal`. -/
def bbBuyStrength (latest : Row) : ℕ :=
  let below_lower_band := latest.close < latest.bb_lower
  let in_middle := latest.bb_lower < latest.close ∧ latest.close < latest.bb_upper
  let macd_bullish := latest.macd > latest.macd_signal
  (if below_lower_band ∨ (in_middle ∧ latest.percent_b < 2/10) then 30 else 0) +
  (if latest.rsi < 35 then 20 else 0) +
  (if macd_bullish then 15 else 0) +
  (if latest.volume_ratio > 1 then 15 else 0) +
  (if ¬latest.squeeze ∧ latest.bb_width_pct > 8/10 then 10 else 0)

/-- SELL-evidence score of `BollingerBandsStrategy.generate_signal`. -/
def bbSellStrength (latest : Row) : ℕ :=
  let above_upper_band := latest.close > latest.bb_upper
  let in_middle := latest.bb_lower < latest.close ∧ latest.close < latest.bb_upper
  let macd_bullish := latest.macd > latest.macd_signal
  (if above_upper_band ∨ (in_middle ∧ latest.percent_b > 8/10) then 30 else 0) +
  (if latest.rsi > 65 then 20 else 0) +
  (if ¬macd_bullish then 15 else 0)

/-- `BollingerBandsStrategy.generate_signal`. -/
def bbGenerateSignal (frame : List Row) : Signal :=
  if frame.length < 50 then ⟨.HOLD, 0⟩
  else
    let latest := latestRow frame
    let strength := bbBuyStrength latest
    let sell_strength := bbSellStrength latest
    if strength ≥ 60 ∧ strength > sell_strength then ⟨.BUY, min strength 90⟩
    else if sell_strength ≥ 60 ∧ sell_strength > strength then ⟨.SELL, min sell_strength 90⟩
    else ⟨.HOLD, 0⟩

/-- The seven weighted component scores of
`AdvancedMultiStrategy.generate_signal`, combined into the total score. -/
def advTotalScore (latest previous : Row) : ℚ :=
  let rsi_score : ℚ :=
    if latest.rsi < 30 then 1
    else if latest.rsi > 70 then -1
    else if 40 < latest.rsi ∧ latest.rsi < 60 then (if latest.rsi > 50 then 1/2 else -1/2)
    else 0
  let macd_score : ℚ :=
    if latest.macd > latest.macd_signal ∧ previous.macd ≤ previous.macd_signal then 1
    else if latest.macd < latest.macd_signal ∧ previous.macd ≥ previous.macd_signal then -1
    else if latest.macd > latest.macd_signal then 1/2
    else -1/2
  let bb_score : ℚ :=
    if latest.close < latest.bb_lower then 1
    else if latest.close > latest.bb_upper then -1
    else if latest.bb_position < 3/10 then 1/2
    else if latest.bb_position > 7/10 then -1/2
    else 0
  let stoch_score : ℚ :=
    if latest.stoch_k < 20 ∧ latest.stoch_d < 20 then 1
    else if latest.stoch_k > 80 ∧ latest.stoch_d > 80 then -1
    else if latest.stoch_k > latest.stoch_d then 3/10
    else -(3/10)
  let trend_score : ℚ :=
    if latest.trend_composite ≥ 3 then 1
    else if latest.trend_composite ≤ 1 then -1
    else if latest.adx > 25 then (if latest.psar_trend > 0 then 1/2 else -1/2)
    else 0
  let volume_score : ℚ :=
    if latest.volume_ratio > 3/2 then (if trend_score > 0 then 1 else -1)
    else if latest.volume_ratio > 6/5 then (if trend_score > 0 then 1/2 else -1/2)
    else 0
  let volatility_score : ℚ :=
    if latest.volatility_index < 1/2 then 3/10
    else if latest.volatility_index > 2 then -1/2
    else 0
  rsi_score * (15/100) + macd_score * (20/100) + bb_score * (15/100) +
    stoch_score * (10/100) + trend_score * (20/100) + volume_score * (10/100) +
    volatility_score * (10/100)

/-- `AdvancedMultiStrategy.generate_signal`. -/
def advGenerateSignal (frame : List Row) : Signal :=
  if frame.length < 50 then ⟨.HOLD, 0⟩
  else
    let latest := latestRow frame
    let previous := previousRow frame
    let total_score := advTotalScore latest previous
    if total_score > 3/10 then
      ⟨.BUY, min (pyTrunc ((total_score - 3/10) / (7/10) * 100)) 95⟩
    else if total_score < -(3/10) then
      ⟨.SELL, min (pyTrunc ((|total_score| - 3/10) / (7/10) * 100)) 95⟩
    else ⟨.HOLD, 0⟩

end AITrader

namespace AITrader

/-! ## Order executor and risk sizer (`trader.py`) -/

/-- MT5 `TRADE_RETCODE_DONE`. -/
def doneCode : ℕ := 10009

/-- MT5 `TRADE_RETCODE_NO_MONEY` (insufficient funds — a code the spec
calls terminal). -/
def noMoneyCode : ℕ := 10019

/-- `Trader.max_retries` (set to 3 in `__init__`). -/
def maxRetries : ℕ := 3

/-- `Trader.retry_delay` in seconds (set to 1 in `__init__`). -/
def retryDelaySeconds : ℕ := 1

/-- Account information (`mt5.account_info()`): the balance. -/
structure AccountInfo where
  balance : ℚ

/-- Instrument information (`mt5.symbol_info(symbol)`): every field the
trader reads. `point` is tied to `digits` (MT5 guarantees
`point = 10^(-digits)`) only through hypotheses of the theorems. -/
structure SymbolInfo where
  point : ℚ := 0
  digits : ℕ := 0
  trade_stops_level : ℕ := 0
  trade_tick_value : ℚ := 0
  trade_tick_size : ℚ := 0
  volume_min : ℚ := 0
  volume_max : ℚ := 0
  volume_step : ℚ := 0
  trade_mode_full : Bool := true
  visible : Bool := true

/-- `Trader.calculate_position_size`: risk budget, per-pip sizing,
round-to-step, clamp to `[volume_min, volume_max]`, final
`round(lot_size, 2)`. Returns `none` when account or symbol info is
unavailable. -/
def calculatePositionSize (acct : Option AccountInfo) (info : Option SymbolInfo)
    (risk_percent stop_loss_pips : ℚ) : Option ℚ :=
  match acct, info with
  | none, _ => none
  | some _, none => none
  | some a, some si =>
    let risk_amount := a.balance * (risk_percent / 100)
    let lot0 : ℚ :=
      if stop_loss_pips > 0 then
        if si.trade_tick_value > 0 ∧ si.trade_tick_size > 0 then
          (risk_amount / stop_loss_pips) / si.trade_tick_value
        else risk_amount / (stop_loss_pips * 10)
      else risk_amount / 1000
    let lot1 : ℚ :=
      if si.volume_step > 0 then (roundHalfEven (lot0 / si.volume_step) : ℚ) * si.volume_step
      else lot0
    let lot2 := max si.volume_min (min lot1 si.volume_max)
    some (pyRoundTo lot2 2)

/-- `v` is an integer multiple of the step `s`. -/
def isStepMultiple (v s : ℚ) : Prop := ∃ k : ℤ, v = k * s

/-- Order side (`order_type.lower() == 'buy'` vs the `else` branch). -/
inductive OrderSide | buy | sell
  deriving DecidableEq

/-- `Trader.calculate_stop_levels`: absolute stop-loss/take-profit from
pip distances, pushed out to the instrument's minimum stop distance and
rounded to `digits` decimals. `(0, 0)` when symbol info is missing. -/
def calculateStopLevels (info : Option SymbolInfo) (price : ℚ) (side : OrderSide)
    (stop_loss_pips take_profit_pips : ℚ) : ℚ × ℚ :=
  match info with
  | none => (0, 0)
  | some si =>
    let point := si.point
    let min_stop_level := if si.trade_stops_level > 0 then si.trade_stops_level * point
      else 10 * point
    let min_stop_distance := max min_stop_level (10 * point)
    let sl : ℚ :=
      match side with
      | .buy =>
        if stop_loss_pips > 0 then
          let s := price - stop_loss_pips * point
          if price - s < min_stop_distance then price - min_stop_distance else s
        else 0
      | .sell =>
        if stop_loss_pips > 0 then
          let s := price + stop_loss_pips * point
          if s - price < min_stop_distance then price + min_stop_distance else s
        else 0
    let tp : ℚ :=
      match side with
      | .buy =>
        if take_profit_pips > 0 then
          let t := price + take_profit_pips * point
          if t - price < min_stop_distance then price + min_stop_distance else t
        else 0
      | .sell =>
        if take_profit_pips > 0 then
          let t := price - take_profit_pips * point
          if price - t < min_stop_distance then price - min_stop_distance else t
        else 0
    let sl := if sl > 0 then pyRoundTo sl si.digits else sl
    let tp := if tp > 0 then pyRoundTo tp si.digits else tp
    (sl, tp)

/-- A quote (`mt5.symbol_info_tick`). -/
structure Tick where
  bid : ℚ := 0
  ask : ℚ := 0

/-- The external world one order attempt observes: terminal connection,
symbol info, current tick, and the broker's return code for
`mt5.order_send`. -/
structure MarketEnv where
  connected : Bool := true
  symbolInfo : Option SymbolInfo := none
  tick : Option Tick := none
  retcode : ℕ := doneCode

/-- `Trader.check_market_conditions`: symbol known, full trade mode,
visible, and (when a tick is available) spread at most 50 points. -/
def checkMarketConditions (env : MarketEnv) : Bool × String :=
  match env.symbolInfo with
  | none => (false, "symbol not found")
  | some si =>
    if ¬si.trade_mode_full then (false, "trading restricted")
    else if ¬si.visible then (false, "symbol not visible")
    else
      match env.tick with
      | some t =>
        if (t.ask - t.bid) / si.point > 50 then (false, "spread too high")
        else (true, "market ready")
      | none => (true, "market ready")

/-- The order request assembled by `_send_order_impl` just before
`mt5.order_send`. -/
structure OrderRequest where
  volume : ℚ
  price : ℚ
  sl : ℚ
  tp : ℚ
  side : OrderSide
  deriving DecidableEq

/-- Result of one `_send_order_impl` attempt: the `(bool, message)`
outcome plus the request it submitted (`none` if it failed before
reaching `mt5.order_send`). -/
structure SendResult where
  ok : Bool
  msg : String
  request : Option OrderRequest

/-- The broker error message `_send_order_impl` builds from a non-DONE
return code (via `_get_trade_error_description`). -/
def retcodeErrorMsg (rc : ℕ) : String := "order error " ++ toString rc

/-- `Trader._send_order_impl`: connection check, market-condition check,
tick fetch, symbol info fetch, price selection by side, stop-level
computation, stop/target-too-close validation, submission, and
classification of the return code against `TRADE_RETCODE_DONE` only. -/
def sendOrderImpl (env : MarketEnv) (side : OrderSide)
    (volume stop_loss_pips take_profit_pips : ℚ) : SendResult :=
  if ¬env.connected then ⟨false, "no MT5 connection", none⟩
  else
    match checkMarketConditions env with
    | (false, m) => ⟨false, m, none⟩
    | (true, _) =>
      match env.tick with
      | none => ⟨false, "no price", none⟩
      | some t =>
        match env.symbolInfo with
        | none => ⟨false, "no symbol info", none⟩
        | some si =>
          let price := match side with | .buy => t.ask | .sell => t.bid
          let levels := calculateStopLevels (some si) price side stop_loss_pips take_profit_pips
          let sl := levels.1
          let tp := levels.2
          if sl > 0 ∧ |sl - price| < si.point then
            ⟨false, "stop loss too close to open price", none⟩
          else if tp > 0 ∧ |tp - price| < si.point then
            ⟨false, "take profit too close to open price", none⟩
          else
            let r : OrderRequest := ⟨volume, price, sl, tp, side⟩
            if env.retcode ≠ doneCode then ⟨false, retcodeErrorMsg env.retcode, some r⟩
            else ⟨true, "order done", some r⟩

/-- The request `_send_order_impl` submits when it reaches
`mt5.order_send`: current side price and freshly computed stop levels. -/
def orderRequestOf (env : MarketEnv) (side : OrderSide)
    (volume stop_loss_pips take_profit_pips : ℚ) : OrderRequest :=
  let t := env.tick.getD {}
  let price := match side with | .buy => t.ask | .sell => t.bid
  let levels := calculateStopLevels env.symbolInfo price side stop_loss_pips take_profit_pips
  ⟨volume, price, levels.1, levels.2, side⟩

/-- The message `_retry_operation` returns after exhausting all
attempts. -/
def allAttemptsFailedMsg : String := "all attempts to perform the operation failed"

/-- Observable outcome of `_retry_operation`: final `(bool, message)`,
the attempt indices actually executed, and how many fixed delays were
slept between attempts. -/
structure RetryOutcome where
  ok : Bool
  msg : String
  tried : List ℕ
  sleeps : ℕ
  deriving DecidableEq

/-- The loop body of `Trader._retry_operation`, indexed by the next
attempt number and the remaining attempt budget: run the operation,
return on success, sleep between attempts (`attempt < max_retries - 1`),
and fall through to the generic failure after the budget is spent. -/
def retryFrom (op : ℕ → Bool × String) : ℕ → ℕ → RetryOutcome
  | _, 0 => ⟨false, allAttemptsFailedMsg, [], 0⟩
  | a, n + 1 =>
    let r := op a
    if r.1 then ⟨true, r.2, [a], 0⟩
    else
      let rest := retryFrom op (a + 1) n
      ⟨rest.ok, rest.msg, a :: rest.tried, rest.sleeps + (if n = 0 then 0 else 1)⟩

/-- `Trader._retry_operation` with the configured maximum attempts. -/
def retryOperation (op : ℕ → Bool × String) : RetryOutcome :=
  retryFrom op 0 maxRetries

/-- `Trader.send_order`: retries `_send_order_impl`, which re-observes
the market (`envs i` is what attempt `i` sees). -/
def sendOrder (envs : ℕ → MarketEnv) (side : OrderSide)
    (volume stop_loss_pips take_profit_pips : ℚ) : RetryOutcome :=
  retryOperation (fun i =>
    let r := sendOrderImpl (envs i) side volume stop_loss_pips take_profit_pips
    (r.ok, r.msg))

end AITrader

namespace AITrader

/-! ## Real-time monitor (`realtime_monitor.py`) -/

/-- One price bar of the short recent window the monitor fetches. -/
structure Bar where
  high : ℚ := 0
  low : ℚ := 0
  close : ℚ := 0
  tick_volume : ℚ := 0

/-- A current quote as returned by the data fetcher. -/
structure Quote where
  bid : ℚ := 0
  ask : ℚ := 0
  spread : ℚ := 0
  deriving DecidableEq

/-- What one monitored symbol's fetch produced on a tick: the final
quote (after any re-resolution attempt, `none` if unavailable) and the
recent-bar window (`[]` models an empty/missing frame). -/
structure SymFetch where
  name : String
  quote : Option Quote := none
  bars : List Bar := []

/-- The tick keeps a symbol iff its quote is present with a nonzero bid
and its bar window is nonempty; otherwise the loop `continue`s. -/
def fetchOk (s : SymFetch) : Bool :=
  match s.quote with
  | none => false
  | some q => if q.bid = 0 then false else !s.bars.isEmpty

/-- `RealTimeMonitor._calculate_price_change`: percentage change between
the last two closes, rounded to 4 decimals; 0 with fewer than 2 bars. -/
def priceChangeOf (bars : List Bar) : ℚ :=
  if bars.length < 2 then 0
  else
    let closes := bars.map Bar.close
    let current := closes.getD (closes.length - 1) 0
    let previous := closes.getD (closes.length - 2) 0
    pyRoundTo ((current - previous) / previous * 100) 4

/-- The indicator subset of `_calculate_realtime_indicators` (empty,
i.e. `none`, with fewer than 20 bars). -/
structure RtIndicators where
  rsi : Option ℚ
  sma_20 : Option ℚ
  atr : Option ℚ
  volume_ma : Option ℚ
  current_volume : ℚ
  deriving DecidableEq

/-- The true-range column used by the monitor's ATR: at index 0 pandas
drops the `NaN` shifted terms and keeps `high - low`. -/
def trueRangeCol (bars : List Bar) (i : ℕ) : Option ℚ :=
  if i < bars.length then
    let b := bars.getD i {}
    if i = 0 then some (b.high - b.low)
    else
      let pc := (bars.getD (i - 1) {}).close
      some (max (b.high - b.low) (max |b.high - pc| |b.low - pc|))
  else none

/-- `RealTimeMonitor._calculate_realtime_indicators`. -/
def rtIndicators (bars : List Bar) : Option RtIndicators :=
  if bars.length < 20 then none
  else
    let closes := bars.map Bar.close
    let vols := bars.map Bar.tick_volume
    let last := bars.length - 1
    some
      { rsi := rsiCol closes last
        sma_20 := rollMean 20 (colOf closes) last
        atr := rollMean 14 (trueRangeCol bars) last
        volume_ma := rollMean 20 (colOf vols) last
        current_volume := vols.getD last 0 }

/-- The per-symbol snapshot stored in `market_data['symbols']`. -/
structure SymbolData where
  bid : ℚ
  ask : ℚ
  spread : ℚ
  price_change : ℚ
  volume : ℚ
  indicators : Option RtIndicators
  deriving DecidableEq

/-- The snapshot assembled for a successfully fetched symbol. -/
def mkSymbolData (s : SymFetch) : SymbolData :=
  let q := s.quote.getD {}
  { bid := q.bid
    ask := q.ask
    spread := q.spread
    price_change := priceChangeOf s.bars
    volume := (s.bars.map Bar.tick_volume).sum / s.bars.length
    indicators := rtIndicators s.bars }

/-- Coarse market classification. -/
inductive MarketState | BULLISH | BEARISH | SIDEWAYS | UNKNOWN
  deriving DecidableEq

/-- A whole-market snapshot: per-symbol data (keyed by base symbol, in
tick order) and the aggregate state. -/
structure MarketData where
  symbols : List (String × SymbolData)
  state : MarketState
  deriving DecidableEq

/-- Loop accumulator of `_get_real_time_data`: collected snapshots, the
price-change list, and the successful-symbol count. -/
structure TickAccum where
  symbols : List (String × SymbolData)
  changes : List ℚ
  successful : ℕ

/-- One iteration of the symbol loop: a failed fetch `continue`s, a
successful one appends its snapshot and price change. -/
def tickStep (acc : TickAccum) (s : SymFetch) : TickAccum :=
  if fetchOk s then
    { symbols := acc.symbols ++ [(s.name, mkSymbolData s)]
      changes := acc.changes ++ [priceChangeOf s.bars]
      successful := acc.successful + 1 }
  else acc

/-- The claim-level classification of an average percentage change. -/
def classifyAvg (avg : ℚ) : MarketState :=
  if avg > 1/10 then .BULLISH
  else if avg < -(1/10) then .BEARISH
  else .SIDEWAYS

/-- `RealTimeMonitor._get_real_time_data`: process the symbols in order,
then classify the average price change over the successful ones;
`market_state` stays `UNKNOWN` when no symbol succeeded. -/
def getRealTimeData (fetches : List SymFetch) : MarketData :=
  let acc := fetches.foldl tickStep ⟨[], [], 0⟩
  let state :=
    if ¬(acc.changes = []) ∧ acc.successful > 0 then
      classifyAvg (acc.changes.sum / acc.changes.length)
    else .UNKNOWN
  ⟨acc.symbols, state⟩

end AITrader

namespace AITrader

/-! ## Claims about the strategy layer -/

/-- C5: with fewer bars than the variant's minimum (50 for the
Moving-Average variant, 30 for RSI, 35 for MACD, 50 for Bollinger and
Composite), every `generate_signal` returns HOLD with strength 0. -/
theorem generateSignal_insufficient_bars :
    (∀ frame : List Row, frame.length < 50 → maGenerateSignal frame = ⟨.HOLD, 0⟩) ∧
    (∀ frame : List Row, frame.length < 30 → rsiGenerateSignal frame = ⟨.HOLD, 0⟩) ∧
    (∀ frame : List Row, frame.length < 35 → macdGenerateSignal frame = ⟨.HOLD, 0⟩) ∧
    (∀ frame : List Row, frame.length < 50 → bbGenerateSignal frame = ⟨.HOLD, 0⟩) ∧
    (∀ frame : List Row, frame.length < 50 → advGenerateSignal frame = ⟨.HOLD, 0⟩) := by
  refine ⟨fun f h => ?_, fun f h => ?_, fun f h => ?_, fun f h => ?_, fun f h => ?_⟩ <;>
    simp [maGenerateSignal, rsiGenerateSignal, macdGenerateSignal, bbGenerateSignal,
      advGenerateSignal, h]

/-- C5 witness: the empty frame takes every variant's guard branch. -/
theorem generateSignal_insufficient_bars_witness :
    maGenerateSignal [] = ⟨.HOLD, 0⟩ ∧ rsiGenerateSignal [] = ⟨.HOLD, 0⟩ ∧
    macdGenerateSignal [] = ⟨.HOLD, 0⟩ ∧ bbGenerateSignal [] = ⟨.HOLD, 0⟩ ∧
    advGenerateSignal [] = ⟨.HOLD, 0⟩ :=
  ⟨generateSignal_insufficient_bars.1 [] (by decide),
   generateSignal_insufficient_bars.2.1 [] (by decide),
   generateSignal_insufficient_bars.2.2.1 [] (by decide),
   generateSignal_insufficient_bars.2.2.2.1 [] (by decide),
   generateSignal_insufficient_bars.2.2.2.2 [] (by decide)⟩

lemma maStrength_le (f : List Row) : (maGenerateSignal f).strength <= 95 := by
  simp only [maGenerateSignal]
  split_ifs <;> simp

lemma rsiStrength_le (f : List Row) : (rsiGenerateSignal f).strength <= 90 := by
  simp only [rsiGenerateSignal]
  split_ifs <;> simp

lemma macdStrength_le (f : List Row) : (macdGenerateSignal f).strength <= 95 := by
  simp only [macdGenerateSignal]
  split_ifs <;> simp

lemma bbStrength_le (f : List Row) : (bbGenerateSignal f).strength <= 90 := by
  simp only [bbGenerateSignal]
  split_ifs <;> simp

lemma advStrength_le (f : List Row) : (advGenerateSignal f).strength <= 95 := by
  simp only [advGenerateSignal]
  split_ifs <;> simp

lemma maHold_zero (f : List Row) :
    (maGenerateSignal f).signal = .HOLD -> (maGenerateSignal f).strength = 0 := by
  simp only [maGenerateSignal]
  split_ifs <;> simp

lemma rsiHold_zero (f : List Row) :
    (rsiGenerateSignal f).signal = .HOLD -> (rsiGenerateSignal f).strength = 0 := by
  simp only [rsiGenerateSignal]
  split_ifs <;> simp

lemma macdHold_zero (f : List Row) :
    (macdGenerateSignal f).signal = .HOLD -> (macdGenerateSignal f).strength = 0 := by
  simp only [macdGenerateSignal]
  split_ifs <;> simp

lemma bbHold_zero (f : List Row) :
    (bbGenerateSignal f).signal = .HOLD -> (bbGenerateSignal f).strength = 0 := by
  simp only [bbGenerateSignal]
  split_ifs <;> simp

lemma advHold_zero (f : List Row) :
    (advGenerateSignal f).signal = .HOLD -> (advGenerateSignal f).strength = 0 := by
  simp only [advGenerateSignal]
  split_ifs <;> simp

/-- C9: every variant's strength is at most 95 (at most 90 for the RSI
and Bollinger variants), and a HOLD decision always has strength 0. -/
theorem generateSignal_strength_bounds :
    (∀ f : List Row, (maGenerateSignal f).strength <= 95) ∧
    (∀ f : List Row, (rsiGenerateSignal f).strength <= 90) ∧
    (∀ f : List Row, (macdGenerateSignal f).strength <= 95) ∧
    (∀ f : List Row, (bbGenerateSignal f).strength <= 90) ∧
    (∀ f : List Row, (advGenerateSignal f).strength <= 95) ∧
    (∀ f : List Row, (maGenerateSignal f).signal = .HOLD -> (maGenerateSignal f).strength = 0) ∧
    (∀ f : List Row, (rsiGenerateSignal f).signal = .HOLD -> (rsiGenerateSignal f).strength = 0) ∧
    (∀ f : List Row, (macdGenerateSignal f).signal = .HOLD -> (macdGenerateSignal f).strength = 0) ∧
    (∀ f : List Row, (bbGenerateSignal f).signal = .HOLD -> (bbGenerateSignal f).strength = 0) ∧
    (∀ f : List Row, (advGenerateSignal f).signal = .HOLD -> (advGenerateSignal f).strength = 0) :=
  ⟨maStrength_le, rsiStrength_le, macdStrength_le, bbStrength_le, advStrength_le,
   maHold_zero, rsiHold_zero, macdHold_zero, bbHold_zero, advHold_zero⟩

/-- C9 witness: the empty frame yields a HOLD with strength 0 in every
variant, within every bound. -/
theorem generateSignal_strength_bounds_witness :
    (maGenerateSignal []).strength ≤ 95 ∧ (rsiGenerateSignal []).strength = 0 :=
  ⟨generateSignal_strength_bounds.1 [],
   generateSignal_strength_bounds.2.2.2.2.2.2.1 [] (by decide)⟩

/-- C6: for the RSI, MACD, and Bollinger strategies, a tie between the
BUY-evidence and SELL-evidence scores yields HOLD. -/
theorem tie_implies_hold :
    (∀ frame : List Row,
      rsiBuyStrength (latestRow frame) = rsiSellStrength (latestRow frame) →
      (rsiGenerateSignal frame).signal = .HOLD) ∧
    (∀ frame : List Row,
      macdBuyStrength (latestRow frame) (previousRow frame) =
        macdSellStrength (latestRow frame) (previousRow frame) →
      (macdGenerateSignal frame).signal = .HOLD) ∧
    (∀ frame : List Row,
      bbBuyStrength (latestRow frame) = bbSellStrength (latestRow frame) →
      (bbGenerateSignal frame).signal = .HOLD) := by
  refine ⟨fun f h => ?_, fun f h => ?_, fun f h => ?_⟩ <;>
  · simp only [rsiGenerateSignal, macdGenerateSignal, bbGenerateSignal]
    split_ifs <;> first | rfl | (exfalso; omega)

theorem latestRow_replicate (n : ℕ) (r : Row) (h : 0 < n) :
    latestRow (List.replicate n r) = r := by
  have h2 : n - 1 < n := by omega
  simp [latestRow, List.getD_eq_getElem?_getD, List.getElem?_replicate, h2]

theorem previousRow_replicate (n : ℕ) (r : Row) (h : 0 < n) :
    previousRow (List.replicate n r) = r := by
  have h2 : n - 2 < n := by omega
  simp [previousRow, List.getD_eq_getElem?_getD, List.getElem?_replicate, h2]

/-- A row on which the RSI strategy's BUY and SELL evidence tie at 25. -/
def rsiTieRow : Row :=
  { rsi := 75, macd := 1, macd_signal := 0, volume_ratio := 2,
    rsi_7 := 50, rsi_21 := 50, bb_position := 1/2, stoch_k := 50, stoch_d := 50 }

/-- A row on which the MACD strategy's BUY and SELL evidence tie at 25. -/
def macdTieRow : Row :=
  { macd := -1, macd_signal := 0, macd_histogram := 0, rsi := 50,
    stoch_k := 50, volume_ratio := 0, macd_6_13 := 1, macd_signal_6_13 := 0 }

/-- A row on which the Bollinger strategy's BUY and SELL evidence tie at 45. -/
def bbTieRow : Row :=
  { close := 5, bb_lower := 0, bb_upper := 10, percent_b := 9/10, rsi := 30,
    macd := 0, macd_signal := 0, volume_ratio := 2, squeeze := false, bb_width_pct := 1 }

/-- C6 witness: concrete tied frames produce HOLD in all three strategies. -/
theorem tie_implies_hold_witness :
    (rsiGenerateSignal (List.replicate 30 rsiTieRow)).signal = .HOLD ∧
    (macdGenerateSignal (List.replicate 35 macdTieRow)).signal = .HOLD ∧
    (bbGenerateSignal (List.replicate 50 bbTieRow)).signal = .HOLD :=
  ⟨tie_implies_hold.1 (List.replicate 30 rsiTieRow) (by
      rw [latestRow_replicate _ _ (by norm_num)]
      norm_num [rsiBuyStrength, rsiSellStrength, rsiTieRow]),
   tie_implies_hold.2.1 (List.replicate 35 macdTieRow) (by
      rw [latestRow_replicate _ _ (by norm_num), previousRow_replicate _ _ (by norm_num)]
      norm_num [macdBuyStrength, macdSellStrength, macdTieRow]),
   tie_implies_hold.2.2 (List.replicate 50 bbTieRow) (by
      rw [latestRow_replicate _ _ (by norm_num)]
      norm_num [bbBuyStrength, bbSellStrength, bbTieRow])⟩

end AITrader

namespace AITrader

/-! ## Claims about the risk sizer -/

lemma stepMultiple_min {a b s : ℚ} (ha : isStepMultiple a s) (hb : isStepMultiple b s) :
    isStepMultiple (min a b) s := by
  rcases le_total a b with h | h
  · rwa [min_eq_left h]
  · rwa [min_eq_right h]

lemma stepMultiple_max {a b s : ℚ} (ha : isStepMultiple a s) (hb : isStepMultiple b s) :
    isStepMultiple (max a b) s := by
  rcases le_total a b with h | h
  · rwa [max_eq_right h]
  · rwa [max_eq_left h]

lemma pyRoundTo_stepMultiple {v s : ℚ} (hv : isStepMultiple v s)
    (hs : isStepMultiple s (1/100)) : pyRoundTo v 2 = v := by
  obtain ⟨k, hk⟩ := hv
  obtain ⟨j, hj⟩ := hs
  have hv2 : v = ((k * j : ℤ) : ℚ) / 10 ^ 2 := by
    rw [hk, hj]
    push_cast
    ring
  rw [hv2, pyRoundTo_int_mul]

/-- The instrument limits of the position-sizing counterexample:
`volume_step = volume_min = 0.003`, `volume_max = 1`. -/
def c1si : SymbolInfo :=
  { volume_min := 3/1000, volume_max := 1, volume_step := 3/1000 }

/-- C1 counterexample: with balance 1000, risk 1 % and no stop distance,
the code's raw lot 0.01 is rounded to the 0.003 step (0.009), clamped —
and then `round(lot_size, 2)` lifts it back to 0.01, which is *not* a
multiple of `volume_step = 0.003`, refuting the claim that the returned
volume is always a step multiple. -/
theorem calculatePositionSize_breaks_step :
    calculatePositionSize (some ⟨1000⟩) (some c1si) 1 0 = some (1/100) ∧
    (0 : ℚ) < c1si.volume_step ∧
    ¬ isStepMultiple (1/100 : ℚ) c1si.volume_step := by
  refine ⟨?_, by norm_num [c1si], ?_⟩
  · have hfloor : ⌊(10/3 : ℚ)⌋ = 3 := by norm_num
    have hround : roundHalfEven ((10 : ℚ)/3) = 3 := by
      rw [roundHalfEven]
      norm_num [hfloor]
    have harg : ((1000 : ℚ) * (1 / 100) / 1000) / (3/1000) = 10/3 := by norm_num
    simp only [calculatePositionSize, c1si]
    norm_num [harg, hround, pyRoundTo, roundHalfEven]
  · rintro ⟨k, hk⟩
    simp only [c1si] at hk
    have h3 : ((3 * k : ℤ) : ℚ) = 10 := by
      push_cast
      linarith
    have h4 : (3 * k : ℤ) = 10 := by exact_mod_cast h3
    omega

/-- C1 (amended): when both account and symbol information are
available and the instrument's limits are coherent with its step
(`volume_step > 0`, `volume_min`/`volume_max` on the step grid,
`volume_min ≤ volume_max`, and the step is a whole number of hundredths
so that the final `round(lot, 2)` is the identity), the returned volume
lies in `[volume_min, volume_max]` and is a multiple of `volume_step`;
with missing account or symbol information the function returns `None`. -/
theorem calculatePositionSize_bounds
    (a : AccountInfo) (si : SymbolInfo) (risk_percent stop_loss_pips : ℚ)
    (hstep : 0 < si.volume_step)
    (hgrid : isStepMultiple si.volume_step (1/100))
    (hmin : isStepMultiple si.volume_min si.volume_step)
    (hmax : isStepMultiple si.volume_max si.volume_step)
    (hle : si.volume_min ≤ si.volume_max) :
    (∃ v, calculatePositionSize (some a) (some si) risk_percent stop_loss_pips = some v ∧
      si.volume_min ≤ v ∧ v ≤ si.volume_max ∧ isStepMultiple v si.volume_step) ∧
    (∀ (i : Option SymbolInfo) (r s : ℚ), calculatePositionSize none i r s = none) ∧
    (∀ (a2 : AccountInfo) (r s : ℚ), calculatePositionSize (some a2) none r s = none) := by
  refine ⟨?_, fun i r s => rfl, fun a2 r s => rfl⟩
  simp only [calculatePositionSize]
  set lot0 : ℚ :=
    if stop_loss_pips > 0 then
      if si.trade_tick_value > 0 ∧ si.trade_tick_size > 0 then
        (a.balance * (risk_percent / 100) / stop_loss_pips) / si.trade_tick_value
      else a.balance * (risk_percent / 100) / (stop_loss_pips * 10)
    else a.balance * (risk_percent / 100) / 1000 with hlot0
  have hstep' : (si.volume_step > 0) = True := by simp [hstep]
  set lot1 : ℚ := (roundHalfEven (lot0 / si.volume_step) : ℚ) * si.volume_step with hlot1
  have h1 : isStepMultiple lot1 si.volume_step := ⟨roundHalfEven (lot0 / si.volume_step), rfl⟩
  set lot2 : ℚ := max si.volume_min (min lot1 si.volume_max) with hlot2
  have h2 : isStepMultiple lot2 si.volume_step :=
    stepMultiple_max hmin (stepMultiple_min h1 hmax)
  have hlo : si.volume_min ≤ lot2 := le_max_left _ _
  have hhi : lot2 ≤ si.volume_max := by
    apply max_le hle
    exact min_le_right _ _
  refine ⟨lot2, ?_, hlo, hhi, h2⟩
  rw [if_pos hstep]
  rw [pyRoundTo_stepMultiple h2 hgrid]

/-- C1 amended witness: a standard instrument (`min 0.01`, `max 1`,
`step 0.01`) with balance 1000 and risk 1 %. -/
theorem calculatePositionSize_bounds_witness :
    ∃ v, calculatePositionSize (some ⟨1000⟩)
        (some { volume_min := 1/100, volume_max := 1, volume_step := 1/100 }) 1 0 = some v ∧
      (1/100 : ℚ) ≤ v ∧ v ≤ 1 ∧ isStepMultiple v (1/100) :=
  (calculatePositionSize_bounds ⟨1000⟩
    { volume_min := 1/100, volume_max := 1, volume_step := 1/100 } 1 0
    (by norm_num) ⟨1, by norm_num⟩ ⟨1, by norm_num⟩ ⟨100, by norm_num⟩
    (by norm_num)).1

end AITrader

namespace AITrader

/-! ## Claims about the order executor's stop levels -/

lemma pyRoundTo_grid (d : ℕ) (m : ℤ) :
    pyRoundTo ((m : ℚ) * (1 / 10 ^ d)) d = (m : ℚ) * (1 / 10 ^ d) := by
  have h : (m : ℚ) * (1 / 10 ^ d) = (m : ℚ) / 10 ^ d := by ring
  rw [h, pyRoundTo_int_mul]

lemma pyRoundTo_intsub_grid (d : ℕ) (n : ℤ) (c : ℕ) :
    pyRoundTo ((n : ℚ) * (1 / 10 ^ d) - (c : ℚ) * (1 / 10 ^ d)) d =
      (n : ℚ) * (1 / 10 ^ d) - (c : ℚ) * (1 / 10 ^ d) := by
  have h : (n : ℚ) * (1 / 10 ^ d) - (c : ℚ) * (1 / 10 ^ d) =
      ((n - c : ℤ) : ℚ) * (1 / 10 ^ d) := by
    push_cast
    ring
  rw [h, pyRoundTo_grid]

lemma pyRoundTo_intadd_grid (d : ℕ) (n : ℤ) (c : ℕ) :
    pyRoundTo ((n : ℚ) * (1 / 10 ^ d) + (c : ℚ) * (1 / 10 ^ d)) d =
      (n : ℚ) * (1 / 10 ^ d) + (c : ℚ) * (1 / 10 ^ d) := by
  have h : (n : ℚ) * (1 / 10 ^ d) + (c : ℚ) * (1 / 10 ^ d) =
      ((n + c : ℤ) : ℚ) * (1 / 10 ^ d) := by
    push_cast
    ring
  rw [h, pyRoundTo_grid]

lemma minStopDistance_eq (d S : ℕ) :
    max (if S > 0 then (S : ℚ) * (1 / 10 ^ d) else 10 * (1 / 10 ^ d)) (10 * (1 / 10 ^ d)) =
      ((max S 10 : ℕ) : ℚ) * (1 / 10 ^ d) := by
  have hp : (0 : ℚ) < 1 / 10 ^ d := by positivity
  split_ifs with h
  · rw [Nat.cast_max]
    push_cast
    rw [max_mul_of_nonneg _ _ (le_of_lt hp)]
  · have hS : S = 0 := by omega
    subst hS
    simp

lemma cast_mul_lt (d : ℕ) (a b : ℕ) :
    ((a : ℚ) * (1 / 10 ^ d) < (b : ℚ) * (1 / 10 ^ d)) ↔ a < b := by
  have hp : (0 : ℚ) < 1 / 10 ^ d := by positivity
  rw [mul_lt_mul_right hp]
  exact_mod_cast Iff.rfl

lemma stopLevelBuySL (d S : ℕ) (n : ℤ) (k m : ℕ) (hk : 0 < k)
    (si : SymbolInfo) (hp : si.point = 1 / 10 ^ d) (hd : si.digits = d)
    (hS : si.trade_stops_level = S) :
    (calculateStopLevels (some si) ((n : ℚ) * (1 / 10 ^ d)) .buy (k : ℚ) (m : ℚ)).1 =
      (n : ℚ) * (1 / 10 ^ d) -
        (if max S 10 ≤ k then (k : ℚ) else ((max S 10 : ℕ) : ℚ)) * (1 / 10 ^ d) := by
  have hkQ : (0 : ℚ) < (k : ℚ) := by exact_mod_cast hk
  simp only [calculateStopLevels, hp, hd, hS]
  rw [minStopDistance_eq, sub_sub_cancel]
  simp only [cast_mul_lt]
  rw [if_pos hkQ]
  rcases le_or_lt (max S 10) k with hmk | hmk
  · rw [if_neg (by omega : ¬ k < max S 10), if_pos hmk]
    split_ifs with hg
    · exact pyRoundTo_intsub_grid d n k
    · rfl
  · rw [if_pos hmk, if_neg (by omega : ¬ max S 10 ≤ k)]
    split_ifs with hg
    · exact pyRoundTo_intsub_grid d n (max S 10)
    · rfl

lemma stopLevelBuyTP (d S : ℕ) (n : ℤ) (k m : ℕ)
    (si : SymbolInfo) (hp : si.point = 1 / 10 ^ d) (hd : si.digits = d)
    (hS : si.trade_stops_level = S) :
    (calculateStopLevels (some si) ((n : ℚ) * (1 / 10 ^ d)) .buy (k : ℚ) (m : ℚ)).2 =
      (if 0 < m then
        (n : ℚ) * (1 / 10 ^ d) +
          (if max S 10 ≤ m then (m : ℚ) else ((max S 10 : ℕ) : ℚ)) * (1 / 10 ^ d)
       else 0) := by
  simp only [calculateStopLevels, hp, hd, hS]
  rw [minStopDistance_eq, add_sub_cancel_left]
  simp only [cast_mul_lt]
  rcases Nat.eq_zero_or_pos m with hm | hm
  · subst hm
    norm_num
  · have hmQ : (0 : ℚ) < (m : ℚ) := by exact_mod_cast hm
    rw [if_pos hmQ, if_pos hm]
    rcases le_or_lt (max S 10) m with hmk | hmk
    · rw [if_neg (by omega : ¬ m < max S 10), if_pos hmk]
      split_ifs with hg
      · exact pyRoundTo_intadd_grid d n m
      · rfl
    · rw [if_pos hmk, if_neg (by omega : ¬ max S 10 ≤ m)]
      split_ifs with hg
      · exact pyRoundTo_intadd_grid d n (max S 10)
      · rfl

lemma stopLevelSellSL (d S : ℕ) (n : ℤ) (k m : ℕ) (hk : 0 < k)
    (si : SymbolInfo) (hp : si.point = 1 / 10 ^ d) (hd : si.digits = d)
    (hS : si.trade_stops_level = S) :
    (calculateStopLevels (some si) ((n : ℚ) * (1 / 10 ^ d)) .sell (k : ℚ) (m : ℚ)).1 =
      (n : ℚ) * (1 / 10 ^ d) +
        (if max S 10 ≤ k then (k : ℚ) else ((max S 10 : ℕ) : ℚ)) * (1 / 10 ^ d) := by
  have hkQ : (0 : ℚ) < (k : ℚ) := by exact_mod_cast hk
  simp only [calculateStopLevels, hp, hd, hS]
  rw [minStopDistance_eq, add_sub_cancel_left]
  simp only [cast_mul_lt]
  rw [if_pos hkQ]
  rcases le_or_lt (max S 10) k with hmk | hmk
  · rw [if_neg (by omega : ¬ k < max S 10), if_pos hmk]
    split_ifs with hg
    · exact pyRoundTo_intadd_grid d n k
    · rfl
  · rw [if_pos hmk, if_neg (by omega : ¬ max S 10 ≤ k)]
    split_ifs with hg
    · exact pyRoundTo_intadd_grid d n (max S 10)
    · rfl

lemma stopLevelSellTP (d S : ℕ) (n : ℤ) (k m : ℕ)
    (si : SymbolInfo) (hp : si.point = 1 / 10 ^ d) (hd : si.digits = d)
    (hS : si.trade_stops_level = S) :
    (calculateStopLevels (some si) ((n : ℚ) * (1 / 10 ^ d)) .sell (k : ℚ) (m : ℚ)).2 =
      (if 0 < m then
        (n : ℚ) * (1 / 10 ^ d) -
          (if max S 10 ≤ m then (m : ℚ) else ((max S 10 : ℕ) : ℚ)) * (1 / 10 ^ d)
       else 0) := by
  simp only [calculateStopLevels, hp, hd, hS]
  rw [minStopDistance_eq, sub_sub_cancel]
  simp only [cast_mul_lt]
  rcases Nat.eq_zero_or_pos m with hm | hm
  · subst hm
    norm_num
  · have hmQ : (0 : ℚ) < (m : ℚ) := by exact_mod_cast hm
    rw [if_pos hmQ, if_pos hm]
    rcases le_or_lt (max S 10) m with hmk | hmk
    · rw [if_neg (by omega : ¬ m < max S 10), if_pos hmk]
      split_ifs with hg
      · exact pyRoundTo_intsub_grid d n m
      · rfl
    · rw [if_pos hmk, if_neg (by omega : ¬ max S 10 ≤ m)]
      split_ifs with hg
      · exact pyRoundTo_intsub_grid d n (max S 10)
      · rfl

/-- The instrument of the stop-level counterexample: a 5-digit symbol
with a 10-point broker minimum. -/
def c2si : SymbolInfo := { point := 1/100000, digits := 5, trade_stops_level := 10 }

/-- C2 counterexample: at entry price 1 with a requested stop of 10.4
points — above the 10-point broker minimum, so per the claim the stop
must sit *exactly* 10.4 points away — the final rounding to the
instrument's 5 digits lands the stop at 0.9999, i.e. exactly 10 points
away, not 10.4. -/
theorem calculateStopLevels_fractional_pips_not_exact :
    (52/5 : ℚ) * c2si.point ≥ 10 * c2si.point ∧
    (calculateStopLevels (some c2si) 1 .buy (52/5) 0).1 = 9999/10000 ∧
    (1 : ℚ) - 9999/10000 ≠ (52/5) * c2si.point := by
  have hpoint : c2si.point = 1/100000 := rfl
  refine ⟨by rw [hpoint]; norm_num, ?_, by rw [hpoint]; norm_num⟩
  have hfloor : ⌊(499948/5 : ℚ)⌋ = 99989 := by norm_num
  simp only [calculateStopLevels, c2si]
  norm_num [pyRoundTo, roundHalfEven, hfloor]

/-- C2 (amended): for whole-number pip distances, on an instrument whose
price grid is `point = 10^(-digits)` and whose entry price lies on that
grid, each requested stop-loss/take-profit level is placed at exactly the
requested distance when that distance is at least the minimum stop
distance (`max(trade_stops_level, 10)` points), and is pushed out to
exactly the minimum distance otherwise; a zero take-profit distance
yields no take-profit level. -/
theorem calculateStopLevels_distance_floor (d S : ℕ) (n : ℤ) (k m : ℕ) (hk : 0 < k)
    (si : SymbolInfo) (hp : si.point = 1 / 10 ^ d) (hd : si.digits = d)
    (hS : si.trade_stops_level = S) :
    ((calculateStopLevels (some si) ((n : ℚ) * (1 / 10 ^ d)) .buy (k : ℚ) (m : ℚ)).1 =
      (n : ℚ) * (1 / 10 ^ d) -
        (if max S 10 ≤ k then (k : ℚ) else ((max S 10 : ℕ) : ℚ)) * (1 / 10 ^ d)) ∧
    ((calculateStopLevels (some si) ((n : ℚ) * (1 / 10 ^ d)) .buy (k : ℚ) (m : ℚ)).2 =
      (if 0 < m then
        (n : ℚ) * (1 / 10 ^ d) +
          (if max S 10 ≤ m then (m : ℚ) else ((max S 10 : ℕ) : ℚ)) * (1 / 10 ^ d)
       else 0)) ∧
    ((calculateStopLevels (some si) ((n : ℚ) * (1 / 10 ^ d)) .sell (k : ℚ) (m : ℚ)).1 =
      (n : ℚ) * (1 / 10 ^ d) +
        (if max S 10 ≤ k then (k : ℚ) else ((max S 10 : ℕ) : ℚ)) * (1 / 10 ^ d)) ∧
    ((calculateStopLevels (some si) ((n : ℚ) * (1 / 10 ^ d)) .sell (k : ℚ) (m : ℚ)).2 =
      (if 0 < m then
        (n : ℚ) * (1 / 10 ^ d) -
          (if max S 10 ≤ m then (m : ℚ) else ((max S 10 : ℕ) : ℚ)) * (1 / 10 ^ d)
       else 0)) :=
  ⟨stopLevelBuySL d S n k m hk si hp hd hS, stopLevelBuyTP d S n k m si hp hd hS,
   stopLevelSellSL d S n k m hk si hp hd hS, stopLevelSellTP d S n k m si hp hd hS⟩

/-- C2 amended witness: the spec's own example — a 10-point broker
minimum and a requested 3-point stop — lands the stop exactly 10 points
below the entry price. -/
theorem calculateStopLevels_distance_floor_witness :
    (calculateStopLevels (some c2si) (((100000 : ℤ) : ℚ) * (1 / 10 ^ 5)) .buy ((3 : ℕ) : ℚ)
        ((0 : ℕ) : ℚ)).1 =
      ((100000 : ℤ) : ℚ) * (1 / 10 ^ 5) -
        (if max 10 10 ≤ 3 then ((3 : ℕ) : ℚ) else ((max 10 10 : ℕ) : ℚ)) * (1 / 10 ^ 5) :=
  (calculateStopLevels_distance_floor 5 10 100000 3 0 (by norm_num) c2si
    (by show (1/100000 : ℚ) = 1 / 10 ^ 5
        norm_num)
    rfl rfl).1

end AITrader

namespace AITrader

/-! ## Claims about order submission and retries -/

lemma retryFrom_allFail (op : ℕ → Bool × String) (h : ∀ i, (op i).1 = false) :
    ∀ (n a : ℕ), retryFrom op a n = ⟨false, allAttemptsFailedMsg, List.range' a n, n - 1⟩ := by
  intro n
  induction n with
  | zero => intro a; rfl
  | succ m ih =>
    intro a
    rw [retryFrom]
    rw [h a]
    simp only [Bool.false_eq_true, if_false]
    rw [ih (a + 1)]
    by_cases hm : m = 0
    · subst hm
      simp [List.range']
    · simp only [if_neg hm, List.range']
      congr 1
      omega

lemma sendOrderImpl_ok_retcode (env : MarketEnv) (side : OrderSide) (v a b : ℚ)
    (hok : (sendOrderImpl env side v a b).ok = true) : env.retcode = doneCode := by
  unfold sendOrderImpl at hok
  repeat' split at hok
  all_goals simp_all [apply_ite SendResult.ok]

lemma sendOrder_allFail (envs : ℕ → MarketEnv) (side : OrderSide) (v a b : ℚ)
    (h : ∀ i, (envs i).retcode ≠ doneCode) :
    sendOrder envs side v a b = ⟨false, allAttemptsFailedMsg, [0, 1, 2], 2⟩ := by
  unfold sendOrder retryOperation
  rw [retryFrom_allFail]
  · rfl
  · intro i
    cases hok : (sendOrderImpl (envs i) side v a b).ok
    · simp [hok]
    · exact absurd (sendOrderImpl_ok_retcode _ _ _ _ _ hok) (h i)

lemma sendOrderImpl_submit (env : MarketEnv) (side : OrderSide) (v a b : ℚ)
    (hs : (sendOrderImpl env side v a b).request.isSome = true)
    (hrc : env.retcode ≠ doneCode) :
    sendOrderImpl env side v a b =
      ⟨false, retcodeErrorMsg env.retcode, some (orderRequestOf env side v a b)⟩ := by
  unfold sendOrderImpl
  repeat' split
  all_goals simp_all [sendOrderImpl, orderRequestOf, apply_ite SendResult.request]
  all_goals split_ifs at hs ⊢ <;> simp_all

/-- The instrument of the retry scenarios: a 5-digit tradable symbol. -/
def c3si : SymbolInfo :=
  { point := 1/100000, digits := 5, trade_stops_level := 10,
    trade_mode_full := true, visible := true }

/-- A market environment whose broker rejects every order with
`TRADE_RETCODE_NO_MONEY` (insufficient funds). -/
def c3Env : MarketEnv :=
  { connected := true, symbolInfo := some c3si, tick := some ⟨1, 1 + 1/10000⟩,
    retcode := noMoneyCode }

/-- C3 counterexample: against a broker returning `NO_MONEY` — a code
the spec classifies as terminal, to be surfaced without further retries
and with the broker's classification — `send_order` still executes all
three attempts (`tried = [0, 1, 2]`, not a single attempt) and surfaces
the generic all-attempts-failed message instead of the broker's
classification. -/
theorem sendOrder_retries_terminal_code :
    (sendOrder (fun _ => c3Env) .buy 1 0 0).tried = [0, 1, 2] ∧
    (sendOrder (fun _ => c3Env) .buy 1 0 0).msg = allAttemptsFailedMsg ∧
    c3Env.retcode = noMoneyCode := by
  have h := sendOrder_allFail (fun _ => c3Env) .buy 1 0 0 (fun i => by
    show noMoneyCode ≠ doneCode
    decide)
  rw [h]
  exact ⟨rfl, rfl, rfl⟩

/-- C3 (amended): the executor performs no retryable-versus-terminal
classification of broker return codes: for any per-attempt environments
whose return code is never `TRADE_RETCODE_DONE` — timeout and
insufficient-funds alike — the order is retried for the full three
attempts and the failure surfaced to the caller is the generic
all-attempts-failed message, not the broker's classification. -/
theorem sendOrder_no_classification (envs : ℕ → MarketEnv) (side : OrderSide)
    (v slp tpp : ℚ) (h : ∀ i, (envs i).retcode ≠ doneCode) :
    sendOrder envs side v slp tpp = ⟨false, allAttemptsFailedMsg, [0, 1, 2], 2⟩ :=
  sendOrder_allFail envs side v slp tpp h

/-- C3 amended witness: the constant `NO_MONEY` environment. -/
theorem sendOrder_no_classification_witness :
    sendOrder (fun _ => c3Env) .sell 1 0 0 = ⟨false, allAttemptsFailedMsg, [0, 1, 2], 2⟩ :=
  sendOrder_no_classification (fun _ => c3Env) .sell 1 0 0 (fun _ => by
    show noMoneyCode ≠ doneCode
    decide)

/-- C4: against a broker sink that fails on every attempt (each attempt
reaching submission), `send_order` performs exactly `max_retries = 3`
attempts (`tried = range 3`), sleeps the fixed `retry_delay = 1` second
between consecutive attempts (2 sleeps), re-fetches the current price
and re-computes the stop levels on every attempt — attempt `i` submits
the request built from what attempt `i` observed (`envs i`) — and then
returns a failure outcome. -/
theorem sendOrder_retry_termination (envs : ℕ → MarketEnv) (side : OrderSide)
    (v slp tpp : ℚ)
    (hfail : ∀ i, (envs i).retcode ≠ doneCode)
    (hreach : ∀ i, (sendOrderImpl (envs i) side v slp tpp).request.isSome = true) :
    sendOrder envs side v slp tpp =
      ⟨false, allAttemptsFailedMsg, List.range maxRetries, (maxRetries - 1) * retryDelaySeconds⟩ ∧
    maxRetries = 3 ∧
    (∀ i, sendOrderImpl (envs i) side v slp tpp =
      ⟨false, retcodeErrorMsg (envs i).retcode, some (orderRequestOf (envs i) side v slp tpp)⟩) ∧
    (∀ i, (orderRequestOf (envs i) side v slp tpp).price =
      (match side with
       | .buy => ((envs i).tick.getD {}).ask
       | .sell => ((envs i).tick.getD {}).bid)) ∧
    (∀ i, (orderRequestOf (envs i) side v slp tpp).sl =
        (calculateStopLevels (envs i).symbolInfo ((orderRequestOf (envs i) side v slp tpp).price)
          side slp tpp).1 ∧
      (orderRequestOf (envs i) side v slp tpp).tp =
        (calculateStopLevels (envs i).symbolInfo ((orderRequestOf (envs i) side v slp tpp).price)
          side slp tpp).2) := by
  refine ⟨?_, rfl, fun i => sendOrderImpl_submit _ _ _ _ _ (hreach i) (hfail i),
    fun i => by cases side <;> rfl, fun i => ⟨rfl, rfl⟩⟩
  rw [sendOrder_allFail envs side v slp tpp hfail]
  rfl

/-- C4 witness: the constant failing environment reaches submission on
every attempt and is retried exactly three times. -/
theorem sendOrder_retry_termination_witness :
    sendOrder (fun _ => c3Env) .buy 1 0 0 =
      ⟨false, allAttemptsFailedMsg, List.range maxRetries, (maxRetries - 1) * retryDelaySeconds⟩ :=
  (sendOrder_retry_termination (fun _ => c3Env) .buy 1 0 0
    (fun _ => by
      show noMoneyCode ≠ doneCode
      decide)
    (fun _ => by
      norm_num [sendOrderImpl, checkMarketConditions, calculateStopLevels, c3Env, c3si,
        noMoneyCode, doneCode])).1

end AITrader

namespace AITrader

/-! ## Claims about the real-time monitor -/

lemma foldl_tickStep (fetches : List SymFetch) (acc : TickAccum) :
    fetches.foldl tickStep acc =
      ⟨acc.symbols ++ fetches.filterMap
          (fun s => if fetchOk s then some (s.name, mkSymbolData s) else none),
       acc.changes ++ (fetches.filter fetchOk).map (fun s => priceChangeOf s.bars),
       acc.successful + (fetches.filter fetchOk).length⟩ := by
  induction fetches generalizing acc with
  | nil => simp
  | cons s rest ih =>
    rw [List.foldl_cons, ih]
    by_cases h : fetchOk s
    · simp [tickStep, h, List.filter_cons, List.filterMap_cons]
      omega
    · simp [tickStep, h, List.filter_cons, List.filterMap_cons]

/-- C7: on a monitor tick, the per-symbol snapshot map consists of
exactly the successfully fetched symbols (a failure for one symbol
leaves the others' snapshots intact, in order), and — whenever at least
one symbol succeeds — the aggregate market state is the classification
of the average percentage price change over only the successful
symbols: BULLISH above +0.1, BEARISH below −0.1, else SIDEWAYS. -/
theorem monitor_tick_resilience (fetches : List SymFetch) :
    (getRealTimeData fetches).symbols =
      fetches.filterMap (fun s => if fetchOk s then some (s.name, mkSymbolData s) else none) ∧
    (fetches.filter fetchOk ≠ [] →
      (getRealTimeData fetches).state =
        classifyAvg (((fetches.filter fetchOk).map (fun s => priceChangeOf s.bars)).sum /
          ((fetches.filter fetchOk).length))) := by
  unfold getRealTimeData
  rw [foldl_tickStep]
  constructor
  · simp
  · intro hne
    simp only [List.nil_append, Nat.zero_add]
    rw [if_pos]
    · simp
    · constructor
      · simpa using hne
      · simpa [Nat.pos_iff_ne_zero, List.length_eq_zero] using hne

/-- A symbol whose fetch succeeds: valid quote and two bars (closes 1
then 2, a +100 % move). -/
def okFetch : SymFetch :=
  { name := "EURUSD", quote := some ⟨1, 2, 1⟩, bars := [{ close := 1 }, { close := 2 }] }

/-- A symbol whose fetch fails: no quote, no bars. -/
def badFetch : SymFetch := { name := "XAUUSD", quote := none, bars := [] }

/-- C7 witness: a tick with one successful and one failed symbol keeps
the successful snapshot and classifies from it alone. -/
theorem monitor_tick_resilience_witness :
    (getRealTimeData [okFetch, badFetch]).symbols =
      [okFetch, badFetch].filterMap
        (fun s => if fetchOk s then some (s.name, mkSymbolData s) else none) ∧
    (getRealTimeData [okFetch, badFetch]).state =
      classifyAvg ((([okFetch, badFetch].filter fetchOk).map
          (fun s => priceChangeOf s.bars)).sum /
        (([okFetch, badFetch].filter fetchOk).length)) :=
  ⟨(monitor_tick_resilience [okFetch, badFetch]).1,
   (monitor_tick_resilience [okFetch, badFetch]).2
     (by norm_num [List.filter, fetchOk, okFetch, badFetch])⟩

/-- C10: on a tick in which no tracked symbol yields both a valid quote
and bar data, the snapshot's per-symbol map is empty and its market
state remains UNKNOWN — not SIDEWAYS. -/
theorem monitor_tick_all_failed (fetches : List SymFetch)
    (h : ∀ s ∈ fetches, fetchOk s = false) :
    getRealTimeData fetches = ⟨[], .UNKNOWN⟩ := by
  have hfil : fetches.filter fetchOk = [] := by
    rw [List.filter_eq_nil_iff]
    intro s hs
    simp [h s hs]
  unfold getRealTimeData
  rw [foldl_tickStep]
  have hfm : fetches.filterMap
      (fun s => if fetchOk s then some (s.name, mkSymbolData s) else none) = [] := by
    rw [List.filterMap_eq_nil_iff]
    intro s hs
    simp [h s hs]
  simp [hfil, hfm]

/-- C10 witness: a tick whose only symbol fails produces the empty map
and the UNKNOWN state. -/
theorem monitor_tick_all_failed_witness :
    getRealTimeData [badFetch] = ⟨[], .UNKNOWN⟩ :=
  monitor_tick_all_failed [badFetch] (by
    intro s hs
    simp only [List.mem_singleton] at hs
    subst hs
    rfl)

end AITrader

namespace AITrader

/-! ## Claims about the RSI indicator -/

lemma div_div_fourteen (g l : ℚ) : (g / 14) / (l / 14) = g / l := by
  rcases eq_or_ne l 0 with h | h
  · simp [h]
  · field_simp

lemma gainCol_eq (xs : List ℚ) (idx : ℕ) (h2 : idx < xs.length) :
    gainCol xs idx = some (gainQ0 xs idx) := by
  simp only [gainCol, gainQ0, diffCol, gainQ]
  rw [if_pos h2]
  rcases Nat.eq_zero_or_pos idx with h0 | h0
  · subst h0
    rw [if_pos rfl]
    norm_num
  · rw [if_neg (by omega), if_neg (by omega)]

lemma lossCol_eq (xs : List ℚ) (idx : ℕ) (h2 : idx < xs.length) :
    lossCol xs idx = some (lossQ0 xs idx) := by
  simp only [lossCol, lossQ0, diffCol]
  rw [if_pos h2]
  rcases Nat.eq_zero_or_pos idx with h0 | h0
  · subst h0
    rw [if_pos rfl]
    norm_num
  · rw [if_neg (by omega), if_neg (by omega)]
    show some _ = some _
    congr 1
    simp only [lossQ]
    split_ifs <;> ring

lemma rollMean_some (k : ℕ) (f : ℕ → Option ℚ) (g : ℕ → ℚ) (i : ℕ)
    (hik : k ≤ i + 1) (hf : ∀ j < k, f (i + 1 - k + j) = some (g (i + 1 - k + j))) :
    rollMean k f i = some (((List.range k).map (fun j => g (i + 1 - k + j))).sum / k) := by
  rw [rollMean, if_neg (by omega)]
  have hw : (List.range k).map (fun j => f (i + 1 - k + j)) =
      (List.range k).map (fun j => some (g (i + 1 - k + j))) := by
    apply List.map_congr_left
    intro j hj
    exact hf j (List.mem_range.mp hj)
  rw [hw, if_pos]
  · congr 1
    rw [List.map_map]
    congr 1
  · simp [List.all_eq_true]

lemma rsiCol_cutler_aux (xs : List ℚ) (i : ℕ) (h13 : 13 ≤ i) (hlen : i < xs.length) :
    rsiCol xs i = some (100 - 100 /
      (1 + (((List.range 14).map (fun j => gainQ0 xs (i + 1 - 14 + j))).sum) /
        (((List.range 14).map (fun j => lossQ0 xs (i + 1 - 14 + j))).sum))) := by
  have hg : rollMean 14 (gainCol xs) i =
      some (((List.range 14).map (fun j => gainQ0 xs (i + 1 - 14 + j))).sum / 14) := by
    apply rollMean_some 14 _ _ i (by omega)
    intro j hj
    exact gainCol_eq xs _ (by omega)
  have hl : rollMean 14 (lossCol xs) i =
      some (((List.range 14).map (fun j => lossQ0 xs (i + 1 - 14 + j))).sum / 14) := by
    apply rollMean_some 14 _ _ i (by omega)
    intro j hj
    exact lossCol_eq xs _ (by omega)
  rw [rsiCol, hg, hl]
  simp only [div_div_fourteen]

lemma rollMean_gain_warmup (xs : List ℚ) (j : ℕ) (hj : j ≤ 12) :
    rollMean 14 (gainCol xs) j = none := by
  rw [rollMean, if_pos (by omega)]

lemma rsiCol_warmup_aux (xs : List ℚ) (j : ℕ) (hj : j ≤ 12) : rsiCol xs j = none := by
  rw [rsiCol, rollMean_gain_warmup xs j hj]

lemma range14 : List.range 14 = [0, 1, 2, 3, 4, 5, 6, 7, 8, 9, 10, 11, 12, 13] := rfl

/-- The closing-price series of the RSI counterexample: one big up move
followed by alternating one-point moves. -/
def ex8closes : List ℚ :=
  [10, 24, 23, 24, 23, 24, 23, 24, 23, 24, 23, 24, 23, 24, 23, 24]

/-- C8 counterexample: on `ex8closes` at index 15 the pipeline's `rsi`
column (a plain 14-period rolling mean of gains over losses) is exactly
50, while the Wilder-smoothed RSI the spec describes is 5480/73 ≈ 75.07:
the code's RSI is not Wilder-style. -/
theorem rsiCol_ne_wilder :
    rsiCol ex8closes 15 = some 50 ∧
    wilderRsi ex8closes 15 = 5480/73 ∧
    (50 : ℚ) ≠ 5480/73 := by
  refine ⟨?_, ?_, by norm_num⟩
  · have hcut := rsiCol_cutler_aux ex8closes 15 (by norm_num) (by norm_num [ex8closes])
    rw [hcut]
    norm_num [range14, gainQ0, lossQ0, gainQ, lossQ, ex8closes]
  · have h14g : wilderAvgGain ex8closes 14 = 10/7 := by
      show wilderAvgGain ex8closes (13 + 1) = 10/7
      rw [wilderAvgGain]
      norm_num [range14, gainQ, ex8closes]
    have h14l : wilderAvgLoss ex8closes 14 = 1/2 := by
      show wilderAvgLoss ex8closes (13 + 1) = 1/2
      rw [wilderAvgLoss]
      norm_num [range14, lossQ, ex8closes]
    have h15g : wilderAvgGain ex8closes 15 = 137/98 := by
      show wilderAvgGain ex8closes (14 + 1) = 137/98
      rw [wilderAvgGain]
      rw [if_neg (by norm_num), if_neg (by norm_num), h14g]
      norm_num [gainQ, ex8closes]
    have h15l : wilderAvgLoss ex8closes 15 = 13/28 := by
      show wilderAvgLoss ex8closes (14 + 1) = 13/28
      rw [wilderAvgLoss]
      rw [if_neg (by norm_num), if_neg (by norm_num), h14l]
      norm_num [lossQ, ex8closes]
    rw [wilderRsi, h15g, h15l]
    norm_num

/-- C8 (amended): the pipeline's `rsi` column is Cutler's RSI, not
Wilder's: pandas `where(delta > 0, 0)` turns the leading `NaN` of
`diff()` into 0, so at every index `i ≥ 13` within the series the column
equals `100 − 100 / (1 + RS)` where `RS` is the ratio of the plain
14-period rolling mean of the zeroed gain series to that of the zeroed
loss series (no Wilder smoothing) — at `i = 13` the window's index-0
cell contributes 0 — and for `i ≤ 12` the window is incomplete and the
column is undefined (`NaN`). -/
theorem rsiCol_is_cutler :
    (∀ (xs : List ℚ) (i : ℕ), 13 ≤ i → i < xs.length →
      rsiCol xs i = some (100 - 100 /
        (1 + (((List.range 14).map (fun j => gainQ0 xs (i + 1 - 14 + j))).sum) /
          (((List.range 14).map (fun j => lossQ0 xs (i + 1 - 14 + j))).sum)))) ∧
    (∀ (xs : List ℚ) (j : ℕ), j ≤ 12 → rsiCol xs j = none) :=
  ⟨rsiCol_cutler_aux, rsiCol_warmup_aux⟩

/-- C8 amended witness: Cutler's formula at index 13 — the first full
window, whose index-0 cell is the zeroed leading `NaN` — of the concrete
series, and the warm-up `NaN` at index 12. -/
theorem rsiCol_is_cutler_witness :
    rsiCol ex8closes 13 = some (100 - 100 /
      (1 + (((List.range 14).map (fun j => gainQ0 ex8closes (13 + 1 - 14 + j))).sum) /
        (((List.range 14).map (fun j => lossQ0 ex8closes (13 + 1 - 14 + j))).sum))) ∧
    rsiCol ex8closes 12 = none :=
  ⟨rsiCol_is_cutler.1 ex8closes 13 (by norm_num) (by norm_num [ex8closes]),
   rsiCol_is_cutler.2 ex8closes 12 (by norm_num)⟩

end AITrader
